import Mathlib

/-!  Verification of the tool-orchestrated generation loop of a RAG chatbot
backend.  The definitions below are a shallow embedding of
`backend/ai_generator.py` (class `AIGenerator`): the completion provider is
modelled as a function from the call index to either a raised exception
(`Except.error` with the exception message) or a structured response, and the
loop returns, besides the final answer, the trace of provider requests it
issued and the tool-result batches it executed, so that call counts and
request shapes can be stated.  The tool registry (`search_tools.py`, absent
from the sources; described by the spec and exercised by
`tests/test_search_tools.py`) is modelled from the spec at the end.  -/

/-- A content block of a completion-provider response: a text block, or a
tool-use block carrying a tool name, its input arguments and a call id
(the Anthropic content blocks consumed by `ai_generator.py`; a text block is
the only kind with a `text` attribute, a tool-use block the only kind whose
`type` is `"tool_use"`). -/
inductive ContentBlock where
  | text (value : String)
  | toolUse (name : String) (input : List (String × String)) (id : String)
deriving DecidableEq, Repr

/-- A completion-provider response: `stop_reason` and the ordered content. -/
structure Response where
  stop_reason : String
  content : List ContentBlock
deriving DecidableEq, Repr

/-- A tool-result dict as built by `_execute_tool_calls`:
`{"type": "tool_result", "tool_use_id": ..., "content": ...}` (the constant
`type` tag is implicit in the structure). -/
structure ToolResultBlock where
  tool_use_id : String
  content : String
deriving DecidableEq, Repr

/-- The content of one conversation message: the plain query string, the raw
content blocks of a provider response, or a list of tool-result dicts. -/
inductive MessageContent where
  | str (s : String)
  | blocks (bs : List ContentBlock)
  | results (rs : List ToolResultBlock)
deriving DecidableEq, Repr

/-- A conversation message `{"role": ..., "content": ...}`. -/
structure Message where
  role : String
  content : MessageContent
deriving DecidableEq, Repr

/-- A tool schema as passed in the `tools` list of a request. -/
structure ToolSpec where
  name : String
  description : String
  input_schema : String
deriving DecidableEq, Repr

/-- One request to `self.client.messages.create`: the keyword arguments it is
called with.  `tools`/`tool_choice` are `none` when the corresponding keys are
absent from the request dict. -/
structure ApiRequest where
  model : String
  temperature : Nat
  max_tokens : Nat
  system : String
  messages : List Message
  tools : Option (List ToolSpec)
  tool_choice : Option String
deriving DecidableEq, Repr

/-- The generator's `tool_manager` collaborator, seen through the one method
the loop calls: `execute_tool(name, **input)`, which either returns a string
or raises (`Except.error` carries `str(e)`). -/
abbrev ToolExecutor := String → List (String × String) → Except String String

/-- The completion provider: the outcome of the i-th `messages.create` call of
one `generate_response` invocation (0-based); `Except.error` is a raised
provider exception. -/
abbrev CompletionProvider := Nat → Except String Response

/-- The static system prompt `AIGenerator.SYSTEM_PROMPT` (verbatim, including
the leading space of the Python triple-quoted string). -/
def SYSTEM_PROMPT : String :=
  " You are an AI assistant specialized in course materials and educational content with access to tools for course information.\n\nAvailable Tools:\n1. **search_course_content** - Search for specific content within course materials\n2. **get_course_outline** - Get a course's structure: title, link, and complete lesson list\n\nTool Usage Guidelines:\n- Use **get_course_outline** for questions about:\n  - What lessons are in a course\n  - Course structure or outline\n  - What topics a course covers\n  - How many lessons a course has\n- Use **search_course_content** for questions about:\n  - Specific concepts or topics within course content\n  - Detailed information from lessons\n- **Up to two tool calls per query** - Use first to gather info, second to refine if needed\n- If no results, state this clearly without offering alternatives\n\nResponse Protocol:\n- **General knowledge questions**: Answer using existing knowledge without searching\n- **Course-specific questions**: Use appropriate tool first, then answer\n- **No meta-commentary**: Provide direct answers only\n\nAll responses must be:\n1. **Brief, Concise and focused** - Get to the point quickly\n2. **Educational** - Maintain instructional value\n3. **Clear** - Use accessible language\nProvide only the direct answer to what was asked.\n"

/-- The `AIGenerator` instance state the loop reads: the model name (the
api key only feeds the client object, which the provider model absorbs). -/
structure AIGenerator where
  model : String
deriving DecidableEq, Repr

/-- Python truthiness of the `tools` argument (`if tools:`): not `None` and a
non-empty list. -/
def toolsTruthy : Option (List ToolSpec) → Bool
  | none => false
  | some ts => !ts.isEmpty

/-- The request a loop iteration sends: `base_params` (model, temperature 0,
max_tokens 800) plus the system content, the current messages, and — only when
the `tools` argument is truthy — the `tools` and `tool_choice: auto` keys. -/
def loopParams (gen : AIGenerator) (system_content : String)
    (tools : Option (List ToolSpec)) (messages : List Message) : ApiRequest :=
  { model := gen.model, temperature := 0, max_tokens := 800,
    system := system_content, messages := messages,
    tools := if toolsTruthy tools then tools else none,
    tool_choice := if toolsTruthy tools then some "auto" else none }

/-- The forced final request after max rounds: `base_params` plus messages and
system, with no `tools` or `tool_choice` key. -/
def finalParams (gen : AIGenerator) (system_content : String)
    (messages : List Message) : ApiRequest :=
  { model := gen.model, temperature := 0, max_tokens := 800,
    system := system_content, messages := messages,
    tools := none, tool_choice := none }

/-- `AIGenerator._extract_text_response`: the first content block that has a
`text` attribute (i.e. the first text block), or `""` if none. -/
def extractTextResponse : List ContentBlock → String
  | [] => ""
  | ContentBlock.text v :: _ => v
  | ContentBlock.toolUse _ _ _ :: rest => extractTextResponse rest

/-- The first text block of a content list, as an option (used to state what
`extractTextResponse` computes). -/
def firstText : List ContentBlock → Option String
  | [] => none
  | ContentBlock.text v :: _ => some v
  | ContentBlock.toolUse _ _ _ :: rest => firstText rest

/-- `AIGenerator._execute_tool_calls`: walk the response content; for every
tool-use block call `tool_manager.execute_tool(name, **input)`, catching an
exception into the text `"Tool execution error: " ++ str(e)`, and emit one
tool-result dict carrying the block's id; also report whether any call
raised. -/
def executeToolCalls (tm : ToolExecutor) : List ContentBlock → List ToolResultBlock × Bool
  | [] => ([], false)
  | ContentBlock.text _ :: rest => executeToolCalls tm rest
  | ContentBlock.toolUse name input id :: rest =>
      let one : String × Bool :=
        match tm name input with
        | Except.ok s => (s, false)
        | Except.error e => ("Tool execution error: " ++ e, true)
      let r := executeToolCalls tm rest
      (⟨id, one.1⟩ :: r.1, one.2 || r.2)

/-- The outcome a tool-use block contributes: the tool's return value, or the
converted text when the tool raised. -/
def applyTool (tm : ToolExecutor) (name : String) (input : List (String × String)) : String :=
  match tm name input with
  | Except.ok s => s
  | Except.error e => "Tool execution error: " ++ e

/-- The (name, input, id) triples of the tool-use blocks of a content list, in
order of appearance. -/
def toolUseCalls : List ContentBlock → List (String × List (String × String) × String)
  | [] => []
  | ContentBlock.text _ :: rest => toolUseCalls rest
  | ContentBlock.toolUse name input id :: rest => (name, input, id) :: toolUseCalls rest

/-- Whether a content list contains a tool-use block. -/
def hasToolUseBlock (content : List ContentBlock) : Bool :=
  match content with
  | [] => false
  | ContentBlock.text _ :: rest => hasToolUseBlock rest
  | ContentBlock.toolUse _ _ _ :: _ => true

/-- What `generate_response` produces on a run in which no provider call
raised: the returned answer, the trace of requests issued (in order), and the
tool-result batch of each executed tool round (in order). -/
structure LoopResult where
  answer : String
  requests : List ApiRequest
  toolBatches : List (List ToolResultBlock)
deriving DecidableEq, Repr

/-- The iterative tool loop of `AIGenerator.generate_response`, with `fuel`
the number of loop iterations still allowed (`MAX_TOOL_ROUNDS - round_count`)
and `callIdx` the index of the next provider call.  At fuel 0 the forced
final call (without tools) is issued and its extracted text returned
unconditionally; otherwise one round runs: call the provider, return the
extracted text if `stop_reason != "tool_use"` or no tool manager was given,
else execute the tool calls, append the assistant message and (if any results)
the tool-results user message, and continue.  A provider exception aborts the
whole run with that error. -/
def generateLoopAux (gen : AIGenerator) (provider : CompletionProvider)
    (system_content : String) (tools : Option (List ToolSpec))
    (tool_manager : Option ToolExecutor) :
    Nat → Nat → List Message → List ApiRequest → List (List ToolResultBlock) →
    Except String LoopResult
  | 0, callIdx, messages, reqs, batches =>
      match provider callIdx with
      | Except.error e => Except.error e
      | Except.ok final_response =>
          Except.ok ⟨extractTextResponse final_response.content,
            reqs ++ [finalParams gen system_content messages], batches⟩
  | fuel + 1, callIdx, messages, reqs, batches =>
      match provider callIdx with
      | Except.error e => Except.error e
      | Except.ok response =>
          if response.stop_reason ≠ "tool_use" then
            Except.ok ⟨extractTextResponse response.content,
              reqs ++ [loopParams gen system_content tools messages], batches⟩
          else
            match tool_manager with
            | none =>
                Except.ok ⟨extractTextResponse response.content,
                  reqs ++ [loopParams gen system_content tools messages], batches⟩
            | some tm =>
                let tr := executeToolCalls tm response.content
                let messages1 := messages ++ [⟨"assistant", MessageContent.blocks response.content⟩]
                let messages2 :=
                  if tr.1.isEmpty then messages1
                  else messages1 ++ [⟨"user", MessageContent.results tr.1⟩]
                generateLoopAux gen provider system_content tools tool_manager
                  fuel (callIdx + 1) messages2
                  (reqs ++ [loopParams gen system_content tools messages])
                  (batches ++ [tr.1])

/-- `MAX_TOOL_ROUNDS` of `AIGenerator.generate_response`. -/
def MAX_TOOL_ROUNDS : Nat := 2

/-- The system content computed once before the loop: the static prompt,
suffixed with the previous-conversation block exactly when the history
argument is truthy (not `None` and non-empty). -/
def systemContent (conversation_history : Option String) : String :=
  match conversation_history with
  | some h =>
      if h.isEmpty then SYSTEM_PROMPT
      else SYSTEM_PROMPT ++ "\n\nPrevious conversation:\n" ++ h
  | none => SYSTEM_PROMPT

/-- `AIGenerator.generate_response`: build the system content and the initial
message list holding the user query, then run the bounded tool loop. -/
def generate_response (gen : AIGenerator) (provider : CompletionProvider)
    (query : String) (conversation_history : Option String)
    (tools : Option (List ToolSpec)) (tool_manager : Option ToolExecutor) :
    Except String LoopResult :=
  generateLoopAux gen provider (systemContent conversation_history) tools tool_manager
    MAX_TOOL_ROUNDS 0 [⟨"user", MessageContent.str query⟩] [] []

/-- A source citation `{"text": ..., "url": ...}` tracked by a tool. -/
structure Source where
  text : String
  url : Option String
deriving DecidableEq, Repr

/-- Modelled from the spec: a member of the Retrieval Tool Set, through the
capability surface the Tool Registry uses — a name, an executable taking the
call arguments to a text result, and the transiently held `last_sources` list
(the module `search_tools.py` is absent from the sources; only its tests are
present). -/
structure Tool where
  name : String
  execute : List (String × String) → String
  last_sources : List Source

/-- Modelled from the spec: the Tool Registry (`ToolManager` of
`search_tools.py`, absent from the sources) — the registered tools in
registration order. -/
structure ToolManager where
  tools : List Tool

/-- Modelled from the spec: `ToolManager.execute_tool` dispatches to the tool
registered under the name; if no tool with that name is registered it returns
a text result stating the tool was not found, and never raises (the model is
a total function into `String`). -/
def ToolManager.execute_tool (m : ToolManager) (tool_name : String)
    (args : List (String × String)) : String :=
  match m.tools.find? (fun t => t.name == tool_name) with
  | some t => t.execute args
  | none => "Tool " ++ tool_name ++ " not found"

/-- Modelled from the spec: `ToolManager.get_last_sources` (the registry's
`collect_sources`) concatenates `last_sources` from every registered tool, in
registration order; it does not mutate the registry. -/
def ToolManager.get_last_sources (m : ToolManager) : List Source :=
  (m.tools.map Tool.last_sources).join

/-- Modelled from the spec: `ToolManager.reset_sources` (the registry's
`clear_sources`) resets every registered tool's `last_sources` to empty. -/
def ToolManager.reset_sources (m : ToolManager) : ToolManager :=
  ⟨m.tools.map fun t => { t with last_sources := [] }⟩

/-- `extractTextResponse` returns the first text block, or `""` if there is
none. -/
theorem extractTextResponse_eq_firstText (c : List ContentBlock) :
    extractTextResponse c = (firstText c).getD "" := by
  induction c with
  | nil => rfl
  | cons b rest ih => cases b <;> simp [extractTextResponse, firstText, ih]

/-- The tool-result list of `executeToolCalls`: exactly one tool-result per
tool-use block, in order of appearance, carrying that block's call id and the
registry's outcome on that block's name and input. -/
theorem executeToolCalls_fst_eq_map (tm : ToolExecutor) (c : List ContentBlock) :
    (executeToolCalls tm c).1 =
      (toolUseCalls c).map (fun x => ⟨x.2.2, applyTool tm x.1 x.2.1⟩) := by
  induction c with
  | nil => rfl
  | cons b rest ih =>
      cases b with
      | text v => simpa [executeToolCalls, toolUseCalls] using ih
      | toolUse name input id =>
          cases he : tm name input <;>
            simp [executeToolCalls, toolUseCalls, applyTool, he, ih]

/-- A tool-use block of the content yields its (name, input, id) triple among
`toolUseCalls`. -/
theorem mem_toolUseCalls {n : String} {i : List (String × String)} {d : String}
    {c : List ContentBlock} (h : ContentBlock.toolUse n i d ∈ c) :
    (n, i, d) ∈ toolUseCalls c := by
  induction c with
  | nil => cases h
  | cons b rest ih =>
      cases h with
      | head => simp [toolUseCalls]
      | tail b hmem => cases b <;> simp [toolUseCalls, ih hmem]

/-- A content list with a tool-use block yields a tool-use call. -/
theorem toolUseCalls_ne_nil {c : List ContentBlock}
    (h : hasToolUseBlock c = true) : toolUseCalls c ≠ [] := by
  induction c with
  | nil => simp [hasToolUseBlock] at h
  | cons b rest ih => cases b <;> simp_all [hasToolUseBlock, toolUseCalls]

/-- A raising tool call is converted, not propagated: the batch contains a
tool-result carrying the block's id and the converted error text. -/
theorem mem_executeToolCalls_of_error {tm : ToolExecutor} {n : String}
    {i : List (String × String)} {d e : String} {c : List ContentBlock}
    (hb : ContentBlock.toolUse n i d ∈ c) (he : tm n i = Except.error e) :
    (⟨d, "Tool execution error: " ++ e⟩ : ToolResultBlock) ∈ (executeToolCalls tm c).1 := by
  rw [executeToolCalls_fst_eq_map]
  have hm := mem_toolUseCalls hb
  have : (⟨d, "Tool execution error: " ++ e⟩ : ToolResultBlock) =
      (fun x : String × List (String × String) × String =>
        (⟨x.2.2, applyTool tm x.1 x.2.1⟩ : ToolResultBlock)) (n, i, d) := by
    simp [applyTool, he]
  rw [this]
  exact List.mem_map_of_mem _ hm

/-- With a tool-use block present, the batch is non-empty. -/
theorem executeToolCalls_ne_nil {tm : ToolExecutor} {c : List ContentBlock}
    (h : hasToolUseBlock c = true) : (executeToolCalls tm c).1 ≠ [] := by
  rw [executeToolCalls_fst_eq_map]
  simpa using toolUseCalls_ne_nil h

/-- Unfolding: at fuel 0 the loop issues the forced final call (no tools) and
returns its extracted text unconditionally. -/
theorem loop_final (gen : AIGenerator) (provider : CompletionProvider)
    (sys : String) (tools : Option (List ToolSpec)) (tm : Option ToolExecutor)
    (callIdx : Nat) (msgs : List Message) (reqs : List ApiRequest)
    (batches : List (List ToolResultBlock)) (r : Response)
    (h0 : provider callIdx = Except.ok r) :
    generateLoopAux gen provider sys tools tm 0 callIdx msgs reqs batches =
      Except.ok ⟨extractTextResponse r.content,
        reqs ++ [finalParams gen sys msgs], batches⟩ := by
  simp [generateLoopAux, h0]

/-- Unfolding: a loop round whose response has a stop reason other than
"tool_use", or with no tool manager supplied, terminates with that response's
extracted text. -/
theorem loop_exit (gen : AIGenerator) (provider : CompletionProvider)
    (sys : String) (tools : Option (List ToolSpec)) (tm : Option ToolExecutor)
    (fuel callIdx : Nat) (msgs : List Message) (reqs : List ApiRequest)
    (batches : List (List ToolResultBlock)) (r : Response)
    (h0 : provider callIdx = Except.ok r)
    (hterm : r.stop_reason ≠ "tool_use" ∨ tm = none) :
    generateLoopAux gen provider sys tools tm (fuel + 1) callIdx msgs reqs batches =
      Except.ok ⟨extractTextResponse r.content,
        reqs ++ [loopParams gen sys tools msgs], batches⟩ := by
  rcases hterm with h | h
  · simp [generateLoopAux, h0, h]
  · subst h
    simp only [generateLoopAux, h0]
    split <;> rfl

/-- Unfolding: a loop round whose response has stop reason "tool_use", with a
tool manager present, executes the batch, appends the assistant message and
(when the batch is non-empty) the tool-results user message, and continues. -/
theorem loop_step (gen : AIGenerator) (provider : CompletionProvider)
    (sys : String) (tools : Option (List ToolSpec)) (m : ToolExecutor)
    (fuel callIdx : Nat) (msgs : List Message) (reqs : List ApiRequest)
    (batches : List (List ToolResultBlock)) (r : Response)
    (h0 : provider callIdx = Except.ok r) (hs : r.stop_reason = "tool_use") :
    generateLoopAux gen provider sys tools (some m) (fuel + 1) callIdx msgs reqs batches =
      generateLoopAux gen provider sys tools (some m) fuel (callIdx + 1)
        (if (executeToolCalls m r.content).1.isEmpty
          then msgs ++ [⟨"assistant", MessageContent.blocks r.content⟩]
          else msgs ++ [⟨"assistant", MessageContent.blocks r.content⟩,
                        ⟨"user", MessageContent.results (executeToolCalls m r.content).1⟩])
        (reqs ++ [loopParams gen sys tools msgs])
        (batches ++ [(executeToolCalls m r.content).1]) := by
  simp [generateLoopAux, h0, hs, List.append_assoc]

/-- Every request a successful run of the loop issues is a loop request or a
final request over the fixed generator, system content and tools argument;
at most `fuel + 1` requests are issued, at least one, and when the maximum is
reached the last request is the forced final (tool-free) one. -/
theorem generateLoopAux_requests (gen : AIGenerator) (provider : CompletionProvider)
    (sys : String) (tools : Option (List ToolSpec)) (tm : Option ToolExecutor) :
    ∀ (fuel callIdx : Nat) (msgs : List Message) (reqs : List ApiRequest)
      (batches : List (List ToolResultBlock)) (res : LoopResult),
      generateLoopAux gen provider sys tools tm fuel callIdx msgs reqs batches =
        Except.ok res →
      ∃ newReqs, res.requests = reqs ++ newReqs ∧
        1 ≤ newReqs.length ∧ newReqs.length ≤ fuel + 1 ∧
        (∀ r ∈ newReqs,
          (∃ ms, r = loopParams gen sys tools ms) ∨ (∃ ms, r = finalParams gen sys ms)) ∧
        (newReqs.length = fuel + 1 →
          ∃ ms, newReqs.get? fuel = some (finalParams gen sys ms)) := by
  intro fuel
  induction fuel with
  | zero =>
      intro callIdx msgs reqs batches res h
      cases hp : provider callIdx with
      | error e => simp [generateLoopAux, hp] at h
      | ok r =>
          rw [loop_final gen provider sys tools tm callIdx msgs reqs batches r hp] at h
          cases h
          refine ⟨[finalParams gen sys msgs], rfl, by simp, by simp, ?_, ?_⟩
          · intro q hq
            simp at hq
            exact Or.inr ⟨msgs, hq⟩
          · intro _
            exact ⟨msgs, rfl⟩
  | succ f ih =>
      intro callIdx msgs reqs batches res h
      cases hp : provider callIdx with
      | error e => simp [generateLoopAux, hp] at h
      | ok r =>
          by_cases hs : r.stop_reason = "tool_use"
          · cases tm with
            | none =>
                rw [loop_exit gen provider sys tools none f callIdx msgs reqs batches r hp
                  (Or.inr rfl)] at h
                cases h
                refine ⟨[loopParams gen sys tools msgs], rfl, by simp, by simp, ?_, ?_⟩
                · intro q hq
                  simp at hq
                  exact Or.inl ⟨msgs, hq⟩
                · intro hlen
                  simp at hlen
            | some m =>
                rw [loop_step gen provider sys tools m f callIdx msgs reqs batches r hp hs] at h
                obtain ⟨rest, hres, hpos, hlen, hall, hlast⟩ := ih (callIdx + 1) _ _ _ res h
                refine ⟨loopParams gen sys tools msgs :: rest, ?_, by simp, ?_, ?_, ?_⟩
                · rw [hres]
                  simp
                · simp
                  omega
                · intro q hq
                  cases hq with
                  | head => exact Or.inl ⟨msgs, rfl⟩
                  | tail _ hmem => exact hall q hmem
                · intro hlen2
                  simp at hlen2
                  obtain ⟨ms, hms⟩ := hlast hlen2
                  exact ⟨ms, by simpa using hms⟩
          · rw [loop_exit gen provider sys tools tm f callIdx msgs reqs batches r hp
              (Or.inl hs)] at h
            cases h
            refine ⟨[loopParams gen sys tools msgs], rfl, by simp, by simp, ?_, ?_⟩
            · intro q hq
              simp at hq
              exact Or.inl ⟨msgs, hq⟩
            · intro hlen
              simp at hlen

/-- Concrete generator used in witnesses and counterexamples. -/
def exGen : AIGenerator := ⟨"model-x"⟩

/-- A response whose stop reason is "tool_use" although its content holds no
tool-use block (the completion-provider contract leaves `stop_reason` and the
content blocks independent). -/
def exStopOnlyResp : Response := ⟨"tool_use", [ContentBlock.text "A"]⟩

/-- A plain text response. -/
def exTextRespB : Response := ⟨"end_turn", [ContentBlock.text "B"]⟩

/-- A provider answering `exStopOnlyResp` on the first call and `exTextRespB`
afterwards. -/
def exProvMismatch : CompletionProvider :=
  fun i => if i = 0 then Except.ok exStopOnlyResp else Except.ok exTextRespB

/-- A tool executor that always returns successfully. -/
def exExecOk : ToolExecutor := fun _ _ => Except.ok "found it"

/-- C2, counterexample: a first response that contains no tool-use block but
whose stop reason is "tool_use", with a tool manager present, does NOT end the
run after one provider call: the code keys on `stop_reason` alone, so a second
call is made (two requests in the trace) and its text "B" — not the first
response's extracted text "A" — is returned. -/
theorem single_call_claim_refuted :
    hasToolUseBlock exStopOnlyResp.content = false ∧
    extractTextResponse exStopOnlyResp.content = "A" ∧
    generate_response exGen exProvMismatch "q" none none (some exExecOk) =
      Except.ok ⟨"B",
        [loopParams exGen SYSTEM_PROMPT none [⟨"user", MessageContent.str "q"⟩],
         loopParams exGen SYSTEM_PROMPT none
           [⟨"user", MessageContent.str "q"⟩,
            ⟨"assistant", MessageContent.blocks [ContentBlock.text "A"]⟩]],
        [[]]⟩ :=
  ⟨rfl, rfl, rfl⟩

/-- C2 (amended): for every query whose first completion-provider response has
stop reason different from "tool_use", exactly one provider call occurs and
generate_response returns that response's extracted text (the first text
content block, or the empty string if the response has no text block). -/
theorem non_tool_use_first_response_single_call (gen : AIGenerator)
    (provider : CompletionProvider) (query : String) (hist : Option String)
    (tools : Option (List ToolSpec)) (tm : Option ToolExecutor) (r : Response)
    (h0 : provider 0 = Except.ok r) (hs : r.stop_reason ≠ "tool_use") :
    generate_response gen provider query hist tools tm =
      Except.ok ⟨(firstText r.content).getD "",
        [loopParams gen (systemContent hist) tools [⟨"user", MessageContent.str query⟩]],
        []⟩ := by
  have e : generate_response gen provider query hist tools tm =
      generateLoopAux gen provider (systemContent hist) tools tm (1 + 1) 0
        [⟨"user", MessageContent.str query⟩] [] [] := rfl
  rw [e, loop_exit gen provider (systemContent hist) tools tm 1 0
    [⟨"user", MessageContent.str query⟩] [] [] r h0 (Or.inl hs),
    extractTextResponse_eq_firstText]
  simp

/-- C3, counterexample: a round whose response contains no tool-use block is
NOT guaranteed to terminate the loop: with stop reason "tool_use" and a tool
manager present the loop continues (a second request is issued and its text
"world", not the first response's "hello", is returned), so a response with
`stop_reason` different from "tool_use" is not treated identically to one
with no tool-use block present. -/
theorem no_toolblock_terminates_refuted :
    hasToolUseBlock (⟨"tool_use", [ContentBlock.text "hello"]⟩ : Response).content = false ∧
    extractTextResponse (⟨"tool_use", [ContentBlock.text "hello"]⟩ : Response).content = "hello" ∧
    generate_response exGen
      (fun i => if i = 0 then Except.ok ⟨"tool_use", [ContentBlock.text "hello"]⟩
        else Except.ok ⟨"stop", [ContentBlock.text "world"]⟩)
      "w" none none (some exExecOk) =
      Except.ok ⟨"world",
        [loopParams exGen SYSTEM_PROMPT none [⟨"user", MessageContent.str "w"⟩],
         loopParams exGen SYSTEM_PROMPT none
           [⟨"user", MessageContent.str "w"⟩,
            ⟨"assistant", MessageContent.blocks [ContentBlock.text "hello"]⟩]],
        [[]]⟩ :=
  ⟨rfl, rfl, rfl⟩

/-- C3 (amended): for every round, if the provider's response has stop reason
different from "tool_use", or no tool registry was supplied to the loop, the
loop terminates and returns the first text block of that response (or the
empty string if none), regardless of the round count. -/
theorem round_exit_stop_reason_or_no_registry (gen : AIGenerator)
    (provider : CompletionProvider) (sys : String) (tools : Option (List ToolSpec))
    (tm : Option ToolExecutor) (fuel callIdx : Nat) (msgs : List Message)
    (reqs : List ApiRequest) (batches : List (List ToolResultBlock)) (r : Response)
    (h0 : provider callIdx = Except.ok r)
    (hterm : r.stop_reason ≠ "tool_use" ∨ tm = none) :
    generateLoopAux gen provider sys tools tm (fuel + 1) callIdx msgs reqs batches =
      Except.ok ⟨(firstText r.content).getD "",
        reqs ++ [loopParams gen sys tools msgs], batches⟩ := by
  rw [loop_exit gen provider sys tools tm fuel callIdx msgs reqs batches r h0 hterm,
    extractTextResponse_eq_firstText]

/-- C6: an exception raised by the completion provider on any call the loop
makes is not caught: the run's outcome is exactly that error (no answer is
constructed), both for an arbitrary loop state and for `generate_response`
when the first call raises. -/
theorem provider_exception_propagates (gen : AIGenerator)
    (provider : CompletionProvider) (tools : Option (List ToolSpec))
    (tm : Option ToolExecutor) (e : String) :
    (∀ (sys : String) (fuel callIdx : Nat) (msgs : List Message)
        (reqs : List ApiRequest) (batches : List (List ToolResultBlock)),
      provider callIdx = Except.error e →
      generateLoopAux gen provider sys tools tm fuel callIdx msgs reqs batches =
        Except.error e) ∧
    (∀ (query : String) (hist : Option String),
      provider 0 = Except.error e →
      generate_response gen provider query hist tools tm = Except.error e) := by
  have base : ∀ (sys : String) (fuel callIdx : Nat) (msgs : List Message)
      (reqs : List ApiRequest) (batches : List (List ToolResultBlock)),
      provider callIdx = Except.error e →
      generateLoopAux gen provider sys tools tm fuel callIdx msgs reqs batches =
        Except.error e := by
    intro sys fuel callIdx msgs reqs batches h
    cases fuel <;> simp [generateLoopAux, h]
  exact ⟨base, fun query hist h =>
    base (systemContent hist) MAX_TOOL_ROUNDS 0 [⟨"user", MessageContent.str query⟩] [] [] h⟩

/-- C1: when the provider requests tool use on both rounds, exactly two
tool-execution batches occur, a third provider call is issued whose request is
the tool-free final one, and its extracted text is returned unconditionally
(r2 is arbitrary: its text may be empty and its stop reason may again be
"tool_use"). -/
theorem two_tool_rounds_forced_final (gen : AIGenerator) (provider : CompletionProvider)
    (query : String) (hist : Option String) (tools : Option (List ToolSpec))
    (m : ToolExecutor) (r0 r1 r2 : Response)
    (h0 : provider 0 = Except.ok r0) (hs0 : r0.stop_reason = "tool_use")
    (h1 : provider 1 = Except.ok r1) (hs1 : r1.stop_reason = "tool_use")
    (h2 : provider 2 = Except.ok r2) :
    ∃ res, generate_response gen provider query hist tools (some m) = Except.ok res ∧
      res.toolBatches =
        [(executeToolCalls m r0.content).1, (executeToolCalls m r1.content).1] ∧
      res.requests.length = 3 ∧
      res.requests.map ApiRequest.tools =
        [if toolsTruthy tools then tools else none,
         if toolsTruthy tools then tools else none, none] ∧
      res.requests.map ApiRequest.tool_choice =
        [if toolsTruthy tools then some "auto" else none,
         if toolsTruthy tools then some "auto" else none, none] ∧
      res.answer = extractTextResponse r2.content := by
  have hrun := (show generate_response gen provider query hist tools (some m) =
      generateLoopAux gen provider (systemContent hist) tools (some m) (1 + 1) 0
        [⟨"user", MessageContent.str query⟩] [] [] from rfl).trans
    ((loop_step gen provider (systemContent hist) tools m 1 0
        [⟨"user", MessageContent.str query⟩] [] [] r0 h0 hs0).trans
      ((loop_step gen provider (systemContent hist) tools m 0 _ _ _ _ r1 h1 hs1).trans
        (loop_final gen provider (systemContent hist) tools (some m) _ _ _ _ r2 h2)))
  exact ⟨_, hrun, rfl, rfl, rfl, rfl, rfl⟩

/-- C4: a raising tool call does not make the loop raise: the exception is
converted at the dispatch boundary into the text
"Tool execution error: <message>", that text sits in the round's tool-result
batch under the block's call id, and the batch is carried in the user message
of the request sent to the provider on the next call. -/
theorem tool_exception_converted (gen : AIGenerator) (provider : CompletionProvider)
    (query : String) (hist : Option String) (tools : Option (List ToolSpec))
    (m : ToolExecutor) (r0 r1 : Response) (n : String)
    (i : List (String × String)) (d e : String)
    (h0 : provider 0 = Except.ok r0) (hs0 : r0.stop_reason = "tool_use")
    (hb : ContentBlock.toolUse n i d ∈ r0.content)
    (he : m n i = Except.error e)
    (h1 : provider 1 = Except.ok r1) (hs1 : r1.stop_reason ≠ "tool_use") :
    ∃ res, generate_response gen provider query hist tools (some m) = Except.ok res ∧
      res.toolBatches = [(executeToolCalls m r0.content).1] ∧
      (⟨d, "Tool execution error: " ++ e⟩ : ToolResultBlock) ∈
        (executeToolCalls m r0.content).1 ∧
      res.requests.length = 2 ∧
      (∃ q, res.requests.get? 1 = some q ∧
        (⟨"user", MessageContent.results (executeToolCalls m r0.content).1⟩ : Message) ∈
          q.messages) ∧
      res.answer = extractTextResponse r1.content := by
  have hmem := @mem_executeToolCalls_of_error m n i d e r0.content hb he
  have hemp : (executeToolCalls m r0.content).1.isEmpty = false := by
    cases hx : (executeToolCalls m r0.content).1 with
    | nil => exact absurd (List.ne_nil_of_mem hmem) (by simp [hx])
    | cons a l => rfl
  have hrun := (show generate_response gen provider query hist tools (some m) =
      generateLoopAux gen provider (systemContent hist) tools (some m) (1 + 1) 0
        [⟨"user", MessageContent.str query⟩] [] [] from rfl).trans
    ((loop_step gen provider (systemContent hist) tools m 1 0
        [⟨"user", MessageContent.str query⟩] [] [] r0 h0 hs0).trans
      (loop_exit gen provider (systemContent hist) tools (some m) 0 _ _ _ _ r1 h1
        (Or.inl hs1)))
  exact ⟨_, hrun, rfl, hmem, rfl, ⟨_, rfl, by simp [loopParams, hemp]⟩, rfl⟩

/-- C5: a processed tool round executes every tool-use block of the response
through the registry, in order of appearance — the batch is exactly one
tool-result per tool-use block, pairing each block's call id with the
registry's outcome on its name and input, in the same order — and the loop
then appends one assistant message holding the raw response content and one
user message holding the ordered batch. -/
theorem tool_batch_execution_shape (gen : AIGenerator) (provider : CompletionProvider)
    (sys : String) (tools : Option (List ToolSpec)) (m : ToolExecutor)
    (fuel callIdx : Nat) (msgs : List Message) (reqs : List ApiRequest)
    (batches : List (List ToolResultBlock)) (r : Response)
    (h0 : provider callIdx = Except.ok r) (hs : r.stop_reason = "tool_use")
    (hblk : hasToolUseBlock r.content = true) :
    (executeToolCalls m r.content).1 =
      (toolUseCalls r.content).map
        (fun x => ⟨x.2.2, applyTool m x.1 x.2.1⟩) ∧
    generateLoopAux gen provider sys tools (some m) (fuel + 1) callIdx msgs reqs batches =
      generateLoopAux gen provider sys tools (some m) fuel (callIdx + 1)
        (msgs ++ [⟨"assistant", MessageContent.blocks r.content⟩,
                  ⟨"user", MessageContent.results (executeToolCalls m r.content).1⟩])
        (reqs ++ [loopParams gen sys tools msgs])
        (batches ++ [(executeToolCalls m r.content).1]) := by
  have hemp : (executeToolCalls m r.content).1.isEmpty = false := by
    cases hx : (executeToolCalls m r.content).1 with
    | nil => exact absurd hx (@executeToolCalls_ne_nil m r.content hblk)
    | cons a l => rfl
  refine ⟨executeToolCalls_fst_eq_map m r.content, ?_⟩
  rw [loop_step gen provider sys tools m fuel callIdx msgs reqs batches r h0 hs, hemp]
  simp

/-- C9: within one generate_response run every provider request carries the
same model, temperature 0, max_tokens 800 and the system content computed once
from the history; every request is a loop-round request (tools and tool_choice
present exactly when the tools argument is truthy) or the final tool-free
request, differing between themselves only in their message lists; at most
MAX_TOOL_ROUNDS + 1 requests occur, and when that maximum is reached the last
request is the forced final one, lacking the tools and tool_choice fields. -/
theorem requests_uniform_within_run (gen : AIGenerator) (provider : CompletionProvider)
    (query : String) (hist : Option String) (tools : Option (List ToolSpec))
    (tm : Option ToolExecutor) (res : LoopResult)
    (hres : generate_response gen provider query hist tools tm = Except.ok res) :
    (∀ req ∈ res.requests,
      req.model = gen.model ∧ req.temperature = 0 ∧ req.max_tokens = 800 ∧
      req.system = systemContent hist ∧
      ((∃ ms, req = loopParams gen (systemContent hist) tools ms) ∨
       (∃ ms, req = finalParams gen (systemContent hist) ms))) ∧
    1 ≤ res.requests.length ∧ res.requests.length ≤ MAX_TOOL_ROUNDS + 1 ∧
    (res.requests.length = MAX_TOOL_ROUNDS + 1 →
      ∃ ms, res.requests.get? MAX_TOOL_ROUNDS =
        some (finalParams gen (systemContent hist) ms)) := by
  obtain ⟨newReqs, hreq, hpos, hlen, hall, hlast⟩ :=
    generateLoopAux_requests gen provider (systemContent hist) tools tm
      MAX_TOOL_ROUNDS 0 [⟨"user", MessageContent.str query⟩] [] [] res hres
  have hreq2 : res.requests = newReqs := by simpa using hreq
  rw [hreq2]
  refine ⟨?_, hpos, hlen, hlast⟩
  intro req hmem
  rcases hall req hmem with ⟨ms, rfl⟩ | ⟨ms, rfl⟩
  · exact ⟨rfl, rfl, rfl, rfl, Or.inl ⟨ms, rfl⟩⟩
  · exact ⟨rfl, rfl, rfl, rfl, Or.inr ⟨ms, rfl⟩⟩

/-- C10: an empty conversation-history string is treated identically to no
history: the previous-conversation block is appended to the system prompt only
for a non-empty history string, the system content for history "" equals the
one for history None, and the whole generate_response run is unchanged. -/
theorem empty_history_equals_none (gen : AIGenerator) (provider : CompletionProvider)
    (query : String) (tools : Option (List ToolSpec)) (tm : Option ToolExecutor) :
    systemContent (some "") = systemContent none ∧
    systemContent none = SYSTEM_PROMPT ∧
    (∀ h : String, h ≠ "" →
      systemContent (some h) = SYSTEM_PROMPT ++ "\n\nPrevious conversation:\n" ++ h) ∧
    generate_response gen provider query (some "") tools tm =
      generate_response gen provider query none tools tm := by
  refine ⟨rfl, rfl, ?_, rfl⟩
  intro h hne
  have : h.isEmpty = false := by
    cases hx : h.isEmpty
    · rfl
    · exact absurd ((String.isEmpty_iff h).mp hx) hne
  simp [systemContent, this]

/-- C7: for every registry state and every name under which no tool is
registered, execute_tool returns a text result stating the tool was not found
— the returned text literally contains the lowercase substring "not found",
hence contains it case-insensitively — and, the model being a total function
into String, it never raises. -/
theorem execute_tool_unknown_not_found (m : ToolManager) (tool_name : String)
    (args : List (String × String))
    (h : ∀ t ∈ m.tools, t.name ≠ tool_name) :
    ∃ pre post, m.execute_tool tool_name args = pre ++ "not found" ++ post := by
  have hfind : m.tools.find? (fun t => t.name == tool_name) = none := by
    rw [List.find?_eq_none]
    intro t ht
    simpa using h t ht
  refine ⟨"Tool " ++ tool_name ++ " ", "", ?_⟩
  simp only [ToolManager.execute_tool, hfind]
  apply String.ext
  have hsplit : (" not found" : String).data =
      (" " : String).data ++ ("not found" : String).data := by decide
  simp [String.data_append, List.append_assoc, hsplit]

/-- C8: after collect_sources (which reads without mutating) and
clear_sources, a subsequent collect_sources returns the empty list, for every
registry state: sources are single-use. -/
theorem sources_cleared_after_reset (m : ToolManager) :
    m.reset_sources.get_last_sources = [] := by
  simp [ToolManager.reset_sources, ToolManager.get_last_sources, List.join_eq_nil_iff]

/-- A response requesting one tool call. -/
def exToolResp : Response :=
  ⟨"tool_use", [ContentBlock.toolUse "search" [("q", "x")] "t1"]⟩

/-- A plain final text response. -/
def exTextResp : Response := ⟨"end_turn", [ContentBlock.text "done"]⟩

/-- A provider requesting tools on the first two calls, then answering. -/
def exProvTwoTools : CompletionProvider :=
  fun i => if i ≤ 1 then Except.ok exToolResp else Except.ok exTextResp

/-- A provider requesting a tool on the first call only. -/
def exProvOneTool : CompletionProvider :=
  fun i => if i = 0 then Except.ok exToolResp else Except.ok exTextResp

/-- A provider answering with text immediately. -/
def exProvText : CompletionProvider := fun _ => Except.ok exTextResp

/-- A provider that always raises. -/
def exProvErr : CompletionProvider := fun _ => Except.error "rate limited"

/-- A tool executor that always raises. -/
def exExecBoom : ToolExecutor := fun _ _ => Except.error "boom"

/-- C1, witness at a concrete two-tool-round run. -/
theorem two_tool_rounds_forced_final_witness :
    ∃ res, generate_response exGen exProvTwoTools "q" none none (some exExecOk) =
        Except.ok res ∧
      res.toolBatches =
        [(executeToolCalls exExecOk exToolResp.content).1,
         (executeToolCalls exExecOk exToolResp.content).1] ∧
      res.requests.length = 3 ∧
      res.requests.map ApiRequest.tools = [none, none, none] ∧
      res.requests.map ApiRequest.tool_choice = [none, none, none] ∧
      res.answer = extractTextResponse exTextResp.content :=
  two_tool_rounds_forced_final exGen exProvTwoTools "q" none none exExecOk
    exToolResp exToolResp exTextResp rfl rfl rfl rfl rfl

/-- C2 (amended), witness at a concrete direct-answer run. -/
theorem non_tool_use_first_response_single_call_witness :
    generate_response exGen exProvText "q" none none none =
      Except.ok ⟨(firstText exTextResp.content).getD "",
        [loopParams exGen (systemContent none) none [⟨"user", MessageContent.str "q"⟩]],
        []⟩ :=
  non_tool_use_first_response_single_call exGen exProvText "q" none none none exTextResp
    rfl (by decide)

/-- C3 (amended), witness at an arbitrary round of a concrete run. -/
theorem round_exit_stop_reason_or_no_registry_witness :
    generateLoopAux exGen exProvText (systemContent none) none none (4 + 1) 7 [] [] [] =
      Except.ok ⟨(firstText exTextResp.content).getD "",
        [] ++ [loopParams exGen (systemContent none) none []], []⟩ :=
  round_exit_stop_reason_or_no_registry exGen exProvText (systemContent none) none none
    4 7 [] [] [] exTextResp rfl (Or.inl (by decide))

/-- C4, witness at a concrete run whose tool raises. -/
theorem tool_exception_converted_witness :
    ∃ res, generate_response exGen exProvOneTool "q" none none (some exExecBoom) =
        Except.ok res ∧
      res.toolBatches = [(executeToolCalls exExecBoom exToolResp.content).1] ∧
      (⟨"t1", "Tool execution error: " ++ "boom"⟩ : ToolResultBlock) ∈
        (executeToolCalls exExecBoom exToolResp.content).1 ∧
      res.requests.length = 2 ∧
      (∃ q, res.requests.get? 1 = some q ∧
        (⟨"user", MessageContent.results
            (executeToolCalls exExecBoom exToolResp.content).1⟩ : Message) ∈
          q.messages) ∧
      res.answer = extractTextResponse exTextResp.content :=
  tool_exception_converted exGen exProvOneTool "q" none none exExecBoom exToolResp
    exTextResp "search" [("q", "x")] "t1" "boom" rfl rfl (by decide) rfl rfl (by decide)

/-- C5, witness at a concrete tool round. -/
theorem tool_batch_execution_shape_witness :
    (executeToolCalls exExecOk exToolResp.content).1 =
      (toolUseCalls exToolResp.content).map
        (fun x => ⟨x.2.2, applyTool exExecOk x.1 x.2.1⟩) ∧
    generateLoopAux exGen exProvOneTool (systemContent none) none (some exExecOk)
        (0 + 1) 0 [] [] [] =
      generateLoopAux exGen exProvOneTool (systemContent none) none (some exExecOk)
        0 (0 + 1)
        ([] ++ [⟨"assistant", MessageContent.blocks exToolResp.content⟩,
                ⟨"user", MessageContent.results
                  (executeToolCalls exExecOk exToolResp.content).1⟩])
        ([] ++ [loopParams exGen (systemContent none) none []])
        ([] ++ [(executeToolCalls exExecOk exToolResp.content).1]) :=
  tool_batch_execution_shape exGen exProvOneTool (systemContent none) none exExecOk 0 0
    [] [] [] exToolResp rfl rfl rfl

/-- C6, witness at a concrete provider failure. -/
theorem provider_exception_propagates_witness :
    generate_response exGen exProvErr "q" none none none = Except.error "rate limited" :=
  (provider_exception_propagates exGen exProvErr none none "rate limited").2 "q" none rfl

/-- C7, witness on the empty registry and the name "nonexistent_tool". -/
theorem execute_tool_unknown_not_found_witness :
    ∃ pre post, ToolManager.execute_tool ⟨[]⟩ "nonexistent_tool" [] =
      pre ++ "not found" ++ post :=
  execute_tool_unknown_not_found ⟨[]⟩ "nonexistent_tool" []
    (fun t ht => absurd ht (List.not_mem_nil t))

/-- The result of the concrete direct-answer run, for the C9 witness. -/
def exRunText : LoopResult :=
  ⟨"done",
   [loopParams exGen (systemContent none) none [⟨"user", MessageContent.str "q"⟩]],
   []⟩

/-- C9, witness at the concrete direct-answer run. -/
theorem requests_uniform_within_run_witness :
    (∀ req ∈ exRunText.requests,
      req.model = exGen.model ∧ req.temperature = 0 ∧ req.max_tokens = 800 ∧
      req.system = systemContent none ∧
      ((∃ ms, req = loopParams exGen (systemContent none) none ms) ∨
       (∃ ms, req = finalParams exGen (systemContent none) ms))) ∧
    1 ≤ exRunText.requests.length ∧
    exRunText.requests.length ≤ MAX_TOOL_ROUNDS + 1 ∧
    (exRunText.requests.length = MAX_TOOL_ROUNDS + 1 →
      ∃ ms, exRunText.requests.get? MAX_TOOL_ROUNDS =
        some (finalParams exGen (systemContent none) ms)) :=
  requests_uniform_within_run exGen exProvText "q" none none none exRunText rfl

/-- C10, witness: the empty-history equality, and the block appended for the
concrete non-empty history "hi". -/
theorem empty_history_equals_none_witness :
    systemContent (some "") = systemContent none ∧
    systemContent (some "hi") = SYSTEM_PROMPT ++ "\n\nPrevious conversation:\n" ++ "hi" :=
  ⟨(empty_history_equals_none exGen exProvText "q" none none).1,
   (empty_history_equals_none exGen exProvText "q" none none).2.2.1 "hi" (by decide)⟩
